import Mathlib

/-!
Verification development for the DataOrb over-the-air (OTA) update subsystem.

The admin frontend (src/frontend/src/components/ConfigPage/OTAConfig.tsx,
src/frontend/src/constants/index.ts, src/unnamed/part_007) and the repository
documentation (src/unnamed/part_018) are embedded directly from the source.
The backend update manager itself (ota_manager.py, referenced by the Makefile
lint targets but not present under src/) is modelled from the specification;
every such definition carries a doc comment starting with
"Modelled from the spec:".
-/

namespace DataOrb

/-! ## Frontend embedding (from source) -/

/-- Fields of the optional `ota` section of `DeviceConfig`
(src/frontend/src/components/ConfigPage/OTAConfig.tsx).  Every field is
optional in the TypeScript type, so each is an `Option` here; a spread of an
absent `config.ota` yields the all-`none` record, matching
`{...config.ota, [field]: value}` on `undefined`. -/
structure OtaSection where
  enabled : Option Bool := none
  branch : Option String := none
  check_on_boot : Option Bool := none
  auto_pull : Option Bool := none
deriving DecidableEq, Repr

/-- The slice of `DeviceConfig` the OTA panel touches (OTAConfig.tsx). -/
structure DeviceConfig where
  ota : Option OtaSection := none
deriving DecidableEq, Repr

/-- The slice of the `OTAStatus` payload the frontend reads (OTAConfig.tsx). -/
structure OTAStatus where
  enabled : Bool := false
  branch : String := "main"
  update_available : Bool := false
deriving DecidableEq, Repr

/-- Outcome of a `fetch` call as seen by the component: either a response
with its `ok` flag, or a thrown network error (the `catch` path). -/
inductive FetchOutcome where
  | resp (ok : Bool)
  | thrown
deriving DecidableEq, Repr

/-- Local state of the `OTAConfig` component together with the externally
visible effects it triggers: `refreshCount` counts `onRefreshStatus()` calls,
`reloadScheduled` records the `setTimeout(... reload ...)` of `applyUpdate`. -/
structure OTAConfigState where
  config : DeviceConfig
  checking : Bool := false
  updating : Bool := false
  switchingBranch : Bool := false
  refreshCount : Nat := 0
  reloadScheduled : Bool := false
deriving DecidableEq, Repr

/-- `handleOTAChange('branch', v)` of OTAConfig.tsx: spreads the existing
`config.ota` (or `undefined`) and overwrites the `branch` field. -/
def DeviceConfig.setOtaBranch (c : DeviceConfig) (v : String) : DeviceConfig :=
  { c with ota := some { c.ota.getD {} with branch := some v } }

/-- `switchBranch` of OTAConfig.tsx (lines 65-83): sets `switchingBranch`,
POSTs to the switch-branch endpoint; on `response.ok` assigns the branch via
`handleOTAChange` and calls `onRefreshStatus`; a non-ok response does nothing;
a thrown error is swallowed; `finally` resets `switchingBranch`. -/
def OTAConfigState.switchBranch (st : OTAConfigState) (branch : String)
    (r : FetchOutcome) : OTAConfigState :=
  let st1 := { st with switchingBranch := true }
  let st2 :=
    match r with
    | .resp true =>
        { st1 with
            config := st1.config.setOtaBranch branch
            refreshCount := st1.refreshCount + 1 }
    | .resp false => st1
    | .thrown => st1
  { st2 with switchingBranch := false }

/-- `checkForUpdates` of OTAConfig.tsx (lines 31-43): sets `checking`,
GETs the check endpoint, refreshes on ok, swallows errors, resets `checking`. -/
def OTAConfigState.checkForUpdates (st : OTAConfigState)
    (r : FetchOutcome) : OTAConfigState :=
  let st1 := { st with checking := true }
  let st2 :=
    match r with
    | .resp true => { st1 with refreshCount := st1.refreshCount + 1 }
    | .resp false => st1
    | .thrown => st1
  { st2 with checking := false }

/-- `applyUpdate` of OTAConfig.tsx (lines 45-63): early-returns unless
`otaStatus?.update_available`; otherwise sets `updating`, POSTs the update
endpoint, schedules a page reload on ok, swallows errors, resets `updating`. -/
def OTAConfigState.applyUpdate (st : OTAConfigState)
    (otaStatus : Option OTAStatus) (r : FetchOutcome) : OTAConfigState :=
  if !((otaStatus.map OTAStatus.update_available).getD false) then st
  else
    let st1 := { st with updating := true }
    let st2 :=
      match r with
      | .resp true => { st1 with reloadScheduled := true }
      | .resp false => st1
      | .thrown => st1
    { st2 with updating := false }

/-- The branch options offered by the OTAConfig.tsx select element
(lines 174-176): main, dev, canary. -/
def otaBranchOptions : List String := ["main", "dev", "canary"]

/-- OTA-related entries of `API_ENDPOINTS`
(src/frontend/src/constants/index.ts). -/
def API_ENDPOINTS_OTA : List String :=
  ["/api/admin/ota/status", "/api/admin/ota/check",
   "/api/admin/ota/update", "/api/admin/ota/switch-branch"]

/-- The OTA REST endpoints documented in the repository docs
(src/unnamed/part_018, section "OTA Update System" / "API Endpoints"),
as (method, path) pairs. -/
def documentedOtaEndpoints : List (String × String) :=
  [("GET", "/api/admin/ota/status"),
   ("GET", "/api/admin/ota/check"),
   ("POST", "/api/admin/ota/update"),
   ("POST", "/api/admin/ota/switch-branch"),
   ("GET", "/api/admin/ota/backups"),
   ("POST", "/api/admin/ota/rollback")]

/-! ## Backend model

The backend update manager (ota_manager.py) is not under src/; the
definitions below are modelled from the specification, sections 3-7. -/

/-- Modelled from the spec: the error taxonomy of section 7 for the missing
backend (ota_manager.py).  `HealthProbeFailed` stands for the post-restart
verification failure of section 4.4, which the spec reports via `last_error`
without giving it a taxonomy name. -/
inductive OtaError where
  | NetworkError
  | AuthError
  | DirtyTreeError
  | CheckoutError
  | BackupError
  | RestoreError
  | NotFoundError
  | ValidationError
  | Busy
  | HealthProbeFailed
deriving DecidableEq, Repr

/-- Modelled from the spec: the persisted `UpdatePolicy` record (section 3)
of the missing backend. -/
structure UpdatePolicy where
  enabled : Bool
  branch : String
  check_on_boot : Bool
  auto_pull : Bool
deriving DecidableEq, Repr

/-- The fixed allow-list of update branches.  The spec (section 3) requires a
small fixed allow-list; the repository documentation (src/unnamed/part_018,
"Branch Strategy") and the frontend select fix it to main/dev/canary. -/
def available_branches : List String := ["main", "dev", "canary"]

/-- Modelled from the spec: `UpdatePolicy.validate` (section 4.3) of the
missing backend — rejects unknown branch names and rejects
`auto_pull = true` combined with `enabled = false`.  (Default normalisation
for absent fields is outside the model: candidates here are full records.) -/
def validate (candidate : UpdatePolicy) : Except OtaError Unit :=
  if candidate.branch ∈ available_branches then
    if candidate.auto_pull && !candidate.enabled then .error .ValidationError
    else .ok ()
  else .error .ValidationError

/-- Modelled from the spec: the state of the single local working tree
managed by the `VersionControlAdapter` (section 4.1) of the missing backend.
Revisions are abstract identifiers (`Nat`). -/
structure Vcs where
  headBranch : String
  headRev : Nat
  dirty : Bool
deriving DecidableEq, Repr

/-- Outcome of the VCS-level part of a checkout, supplied by the environment
since the adapter implementation is not under src/. -/
inductive CheckoutOutcome where
  | success (rev : Nat)
  | vcsFailure
deriving DecidableEq, Repr

/-- Modelled from the spec: `VersionControlAdapter.checkout` (section 4.1) of
the missing backend — fails with `DirtyTreeError` on uncommitted local
changes, fails with `CheckoutError` on any VCS-level failure leaving the tree
at its prior revision, and otherwise moves the tree to the tip of `branch`. -/
def checkout (v : Vcs) (branch : String) (out : CheckoutOutcome) :
    Except OtaError Nat × Vcs :=
  if v.dirty then (.error .DirtyTreeError, v)
  else
    match out with
    | .success rev =>
        (.ok rev, { headBranch := branch, headRev := rev, dirty := false })
    | .vcsFailure => (.error .CheckoutError, v)

/-- Modelled from the spec: a point-in-time `Backup` record (section 3) of
the missing backend.  The configuration blob is abstract (`Nat`). -/
structure Backup where
  id : Nat
  revision : Nat
  config_snapshot : Nat
deriving DecidableEq, Repr

/-- Modelled from the spec: `BackupStore.create` (section 4.2) of the missing
backend — on success prepends a new snapshot (the store lists newest first);
on I/O failure (environment flag `ioOk = false`) fails with `BackupError`
leaving no partial backup.  Ids are monotone. -/
def BackupStore.create (backups : List Backup) (revision cfg : Nat)
    (ioOk : Bool) : Except OtaError (Backup × List Backup) :=
  if ioOk then
    let b : Backup :=
      { id := ((backups.map Backup.id).foldr max 0) + 1
        revision := revision
        config_snapshot := cfg }
    .ok (b, b :: backups)
  else .error .BackupError

/-- Modelled from the spec: `BackupStore.restore` (section 4.2) of the
missing backend — `NotFoundError` on an unknown id, `RestoreError` on I/O
failure, otherwise returns the snapshot to restore. -/
def BackupStore.restore (backups : List Backup) (id : Nat) (ioOk : Bool) :
    Except OtaError Backup :=
  match backups.find? (fun b => b.id == id) with
  | none => .error .NotFoundError
  | some b => if ioOk then .ok b else .error .RestoreError

/-- Modelled from the spec: the machine states of the `UpdateManager`
(section 4.4) of the missing backend. -/
inductive Phase where
  | IDLE
  | CHECKING
  | UPDATE_AVAILABLE
  | BACKING_UP
  | APPLYING
  | RESTARTING
  | ROLLING_BACK
deriving DecidableEq, Repr

/-- Modelled from the spec: the persisted `UpdateStatus` record (section 3)
of the missing backend.  `last_error` holds the taxonomy member instead of a
message string. -/
structure UpdateStatus where
  enabled : Bool
  current_branch : String
  current_revision : Nat
  update_available : Bool
  commits_behind : Nat
  last_check : Option Nat
  last_update : Option Nat
  last_error : Option OtaError
deriving DecidableEq, Repr

/-- Modelled from the spec: the whole state owned by the `UpdateManager` of
the missing backend — policy, status record, working tree, backup store and
machine phase, plus the current configuration blob used for snapshots. -/
structure UpdateManager where
  policy : UpdatePolicy
  status : UpdateStatus
  vcs : Vcs
  backups : List Backup
  phase : Phase
  configBlob : Nat
deriving DecidableEq, Repr

/-- Observable events of one backend operation, in order of occurrence:
phase transitions and calls into the collaborators. -/
inductive Event where
  | enterBackingUp
  | backupCreated
  | backupFailed
  | enterApplying
  | checkoutCalled
  | checkoutSucceeded
  | checkoutFailed
  | enterRestarting
  | restartCalled
  | rollbackPerformed
deriving DecidableEq, Repr

/-- Environment inputs consumed by one apply / branch-switch run: whether the
backup I/O succeeds, the VCS-level checkout outcome, whether the post-restart
health probe passes, and the current time. -/
structure ApplyEnv where
  backupIoOk : Bool
  checkoutOutcome : CheckoutOutcome
  healthOk : Bool
  now : Nat
deriving DecidableEq, Repr

/-- Modelled from the spec: the shared backup-then-checkout-then-restart core
of `apply()` and `switch_branch()` (section 4.4) of the missing backend.
BACKING_UP: create a backup of the current revision; on failure abort to
IDLE(error) with the tree untouched.  APPLYING: checkout the target branch;
on failure abort to IDLE(error).  RESTARTING: restart; if the health probe
fails, roll back to the backup just created and report the original failure.
On full success record the new revision/branch, clear `update_available`. -/
def doUpdate (m : UpdateManager) (targetBranch : String) (env : ApplyEnv) :
    UpdateManager × List Event :=
  match BackupStore.create m.backups m.vcs.headRev m.configBlob env.backupIoOk with
  | .error e =>
      ({ m with phase := .IDLE
                status := { m.status with last_error := some e } },
       [.enterBackingUp, .backupFailed])
  | .ok (b, backups2) =>
      match checkout m.vcs targetBranch env.checkoutOutcome with
      | (.error e, v2) =>
          ({ m with vcs := v2
                    backups := backups2
                    phase := .IDLE
                    status := { m.status with last_error := some e } },
           [.enterBackingUp, .backupCreated, .enterApplying, .checkoutCalled,
            .checkoutFailed])
      | (.ok rev, v2) =>
          if env.healthOk then
            ({ m with vcs := v2
                      backups := backups2
                      phase := .IDLE
                      status := { m.status with
                                    current_branch := targetBranch
                                    current_revision := rev
                                    update_available := false
                                    commits_behind := 0
                                    last_update := some env.now
                                    last_error := none } },
             [.enterBackingUp, .backupCreated, .enterApplying, .checkoutCalled,
              .checkoutSucceeded, .enterRestarting, .restartCalled])
          else
            ({ m with vcs := { headBranch := m.vcs.headBranch
                               headRev := b.revision
                               dirty := false }
                      backups := backups2
                      phase := .IDLE
                      status := { m.status with
                                    last_error := some .HealthProbeFailed } },
             [.enterBackingUp, .backupCreated, .enterApplying, .checkoutCalled,
              .checkoutSucceeded, .enterRestarting, .restartCalled,
              .rollbackPerformed])

/-- Modelled from the spec: `UpdateManager.apply()` (section 4.4) of the
missing backend — a no-op returning the current status when no update is
available or the policy is disabled; otherwise the backup-first update. -/
def apply (m : UpdateManager) (env : ApplyEnv) : UpdateManager × List Event :=
  if m.status.update_available && m.policy.enabled then
    doUpdate m m.policy.branch env
  else (m, [])

/-- Modelled from the spec: `UpdateManager.switch_branch()` (section 4.4) of
the missing backend — validates the branch via `UpdatePolicy`; rejection
returns `ValidationError` with no state change; a switch to the current
branch is a no-op; otherwise behaves exactly as `apply()` but targets the new
branch unconditionally, ignoring `update_available`. -/
def switch_branch (m : UpdateManager) (branch : String) (env : ApplyEnv) :
    Except OtaError (UpdateManager × List Event) :=
  match validate { m.policy with branch := branch } with
  | .error e => .error e
  | .ok () =>
      if branch == m.status.current_branch then .ok (m, [])
      else
        .ok (doUpdate { m with policy := { m.policy with branch := branch } }
              branch env)

/-- Check-time fetch failures (section 4.1): the remote fetch either fails
with a network error or an authentication error. -/
inductive FetchError where
  | network
  | auth
deriving DecidableEq, Repr

/-- The taxonomy member recorded for a check-time fetch failure. -/
def FetchError.toOtaError : FetchError → OtaError
  | .network => .NetworkError
  | .auth => .AuthError

/-- Environment inputs consumed by one `check()` run: an optional fetch
failure, the divergence of the local tree from the remote tip of the
configured branch, and the current time. -/
structure CheckEnv where
  fetchError : Option FetchError
  behind : Nat
  ahead : Nat
  now : Nat
deriving DecidableEq, Repr

/-- Modelled from the spec: `UpdateManager.check()` (section 4.4) of the
missing backend — fetch then divergence against `policy.branch`; on success
records `commits_behind`, `update_available = commits_behind > 0` and
`last_check`; on `NetworkError` / `AuthError` records `last_error` and
returns to IDLE.  The function is total: a check never raises to the
caller. -/
def check (m : UpdateManager) (env : CheckEnv) : UpdateManager :=
  match env.fetchError with
  | some e =>
      { m with phase := .IDLE
               status := { m.status with last_error := some e.toOtaError } }
  | none =>
      { m with phase := .IDLE
               status := { m.status with
                             commits_behind := env.behind
                             update_available := decide (env.behind > 0)
                             last_check := some env.now
                             last_error := none } }

/-- Environment inputs consumed by one `rollback()` run. -/
structure RollbackEnv where
  restoreIoOk : Bool
  now : Nat
deriving DecidableEq, Repr

/-- Modelled from the spec: `UpdateManager.list_backups()` (section 6) of the
missing backend — the stored snapshots, newest first. -/
def list_backups (m : UpdateManager) : List Backup := m.backups

/-- Modelled from the spec: `UpdateManager.rollback()` (section 4.4) of the
missing backend, target selection — defaults to the most recent backup when
`backup_id` is omitted (the store lists newest first), otherwise looks the id
up via `BackupStore.restore`. -/
def rollbackTarget (m : UpdateManager) (backup_id : Option Nat)
    (ioOk : Bool) : Except OtaError Backup :=
  match backup_id with
  | none =>
      match m.backups.head? with
      | none => .error .NotFoundError
      | some b => if ioOk then .ok b else .error .RestoreError
  | some i => BackupStore.restore m.backups i ioOk

/-- Modelled from the spec: `UpdateManager.rollback()` (section 4.4) of the
missing backend — restores the selected snapshot; on success calls
`ServiceRestarter.restart()` and updates the status record; on failure
remains in IDLE(error). -/
def rollback (m : UpdateManager) (backup_id : Option Nat) (env : RollbackEnv) :
    UpdateManager × List Event :=
  match rollbackTarget m backup_id env.restoreIoOk with
  | .error e =>
      ({ m with phase := .IDLE
                status := { m.status with last_error := some e } }, [])
  | .ok b =>
      ({ m with vcs := { m.vcs with headRev := b.revision, dirty := false }
                phase := .IDLE
                status := { m.status with
                              current_revision := b.revision
                              last_update := some env.now
                              last_error := none } },
       [.rollbackPerformed, .restartCalled])

/-- Modelled from the spec: the atomic validate-then-persist policy mutation
(sections 4.3 and 6) of the missing backend — an invalid candidate is
rejected with no state change. -/
def set_policy (m : UpdateManager) (p : UpdatePolicy) : UpdateManager :=
  match validate p with
  | .ok () => { m with policy := p
                       status := { m.status with enabled := p.enabled } }
  | .error _ => m

/-- One admin or boot-time request against the update manager, with the
environment inputs its run consumes. -/
inductive Op where
  | setPolicy (p : UpdatePolicy)
  | doCheck (env : CheckEnv)
  | doApply (env : ApplyEnv)
  | doSwitch (branch : String) (env : ApplyEnv)
  | doRollback (id : Option Nat) (env : RollbackEnv)

/-- The state reached after one request (a rejected branch switch leaves the
state unchanged). -/
def stepOp (m : UpdateManager) (op : Op) : UpdateManager :=
  match op with
  | .setPolicy p => set_policy m p
  | .doCheck env => check m env
  | .doApply env => (apply m env).1
  | .doSwitch b env =>
      match switch_branch m b env with
      | .ok (m2, _) => m2
      | .error _ => m
  | .doRollback i env => (rollback m i env).1

/-- The state reached after a sequence of requests. -/
def run (m : UpdateManager) (ops : List Op) : UpdateManager :=
  ops.foldl stepOp m

/-- Modelled from the spec: the first-boot default state (section 3) of the
missing backend. -/
def initManager : UpdateManager :=
  { policy := { enabled := true, branch := "main",
                check_on_boot := true, auto_pull := false }
    status := { enabled := true, current_branch := "main",
                current_revision := 0, update_available := false,
                commits_behind := 0, last_check := none,
                last_update := none, last_error := none }
    vcs := { headBranch := "main", headRev := 0, dirty := false }
    backups := []
    phase := .IDLE
    configBlob := 0 }

/-! ## Concurrency model (single-flight lock, section 5) -/

/-- Modelled from the spec: the lifecycle of one request against the
single-flight lock (section 5) of the missing backend — pending, running
(lock held), completed, or rejected with `Busy`. -/
inductive ThreadState where
  | pending
  | running
  | done
  | busyRejected
deriving DecidableEq, Repr

/-- Modelled from the spec: two concurrent requests and the process-wide
mutual-exclusion lock (section 5) of the missing backend. -/
structure Sys where
  lock : Bool
  t1 : ThreadState
  t2 : ThreadState
deriving DecidableEq, Repr

/-- Scheduler events: a request attempts to start (acquiring the lock or
receiving `Busy`), or a running request finishes and releases the lock. -/
inductive Label where
  | attempt1
  | attempt2
  | finish1
  | finish2
deriving DecidableEq, Repr

/-- Modelled from the spec: one scheduler step of the single-flight lock
discipline (section 5) — an arriving request while another is in flight
receives `Busy`; otherwise it takes the lock for the whole operation. -/
def sysStep (s : Sys) (l : Label) : Sys :=
  match l with
  | .attempt1 =>
      if s.t1 = .pending then
        if s.lock then { s with t1 := .busyRejected }
        else { s with t1 := .running, lock := true }
      else s
  | .attempt2 =>
      if s.t2 = .pending then
        if s.lock then { s with t2 := .busyRejected }
        else { s with t2 := .running, lock := true }
      else s
  | .finish1 =>
      if s.t1 = .running then { s with t1 := .done, lock := false } else s
  | .finish2 =>
      if s.t2 = .running then { s with t2 := .done, lock := false } else s

/-- The system state after a sequence of scheduler events. -/
def sysRun (s : Sys) (ls : List Label) : Sys := ls.foldl sysStep s

/-- Both requests pending, lock free. -/
def sysInit : Sys := { lock := false, t1 := .pending, t2 := .pending }

/-- The backup record `BackupStore.create` builds for the current state of
the manager (revision of the working tree head, current config blob). -/
def freshBackup (m : UpdateManager) : Backup :=
  { id := ((m.backups.map Backup.id).foldr max 0) + 1
    revision := m.vcs.headRev
    config_snapshot := m.configBlob }

/-! ## Invariant predicates -/

/-- The persisted-policy invariant: the target branch is in the allow-list
and auto-pull implies enabled. -/
def PolicyInv (m : UpdateManager) : Prop :=
  m.policy.branch ∈ available_branches ∧
  (m.policy.auto_pull = true → m.policy.enabled = true)

/-- Mutual exclusion: a free lock means nobody is running, and the two
requests are never running at once. -/
def SysMutex (s : Sys) : Prop :=
  (s.lock = false → s.t1 ≠ .running ∧ s.t2 ≠ .running) ∧
  ¬(s.t1 = .running ∧ s.t2 = .running)

/-- After request 1 won the race: request 2 was rejected with Busy, and
request 1 either still holds the lock or finished and released it. -/
def SysT1Holds (s : Sys) : Prop :=
  s.t2 = .busyRejected ∧
  ((s.t1 = .running ∧ s.lock = true) ∨ (s.t1 = .done ∧ s.lock = false))

/-! ## Helper lemmas -/

theorem validate_ok_inv {p : UpdatePolicy} (h : validate p = .ok ()) :
    p.branch ∈ available_branches ∧ (p.auto_pull = true → p.enabled = true) :=
  by
  unfold validate at h
  by_cases hb : p.branch ∈ available_branches
  · refine ⟨hb, fun ha => ?_⟩
    cases he : p.enabled
    · simp [hb, ha, he] at h
    · rfl
  · simp [hb] at h

theorem validate_reject_branch {p : UpdatePolicy}
    (h : p.branch ∉ available_branches) :
    validate p = .error .ValidationError := by
  unfold validate
  simp [h]

theorem validate_reject_autopull {p : UpdatePolicy}
    (h1 : p.auto_pull = true) (h2 : p.enabled = false) :
    validate p = .error .ValidationError := by
  unfold validate
  by_cases hb : p.branch ∈ available_branches <;> simp [hb, h1, h2]

theorem doUpdate_policy (m : UpdateManager) (b : String) (env : ApplyEnv) :
    (doUpdate m b env).1.policy = m.policy := by
  unfold doUpdate
  split
  · rfl
  · split
    · rfl
    · split <;> rfl

theorem doUpdate_backup_fail (m : UpdateManager) (b : String) (env : ApplyEnv)
    (h : env.backupIoOk = false) :
    doUpdate m b env =
      ({ m with phase := .IDLE
                status := { m.status with last_error := some .BackupError } },
       [.enterBackingUp, .backupFailed]) := by
  unfold doUpdate BackupStore.create
  simp [h]

theorem doUpdate_trace_good (m : UpdateManager) (b : String) (env : ApplyEnv)
    (h : env.backupIoOk = true) :
    (doUpdate m b env).2.take 4 =
      [.enterBackingUp, .backupCreated, .enterApplying, .checkoutCalled] := by
  unfold doUpdate BackupStore.create
  simp only [h, if_true]
  split
  · rfl
  · split <;> rfl

theorem doUpdate_backups_good (m : UpdateManager) (b : String) (env : ApplyEnv)
    (h : env.backupIoOk = true) :
    ((doUpdate m b env).1.backups.head?.map Backup.revision) =
      some m.vcs.headRev := by
  unfold doUpdate BackupStore.create
  simp only [h, if_true]
  split
  · rfl
  · split <;> rfl

theorem apply_guard_true {m : UpdateManager} (env : ApplyEnv)
    (h : (m.status.update_available && m.policy.enabled) = true) :
    apply m env = doUpdate m m.policy.branch env := by
  unfold apply
  simp [h]

theorem apply_guard_false {m : UpdateManager} (env : ApplyEnv)
    (h : (m.status.update_available && m.policy.enabled) = false) :
    apply m env = (m, []) := by
  unfold apply
  simp [h]

theorem apply_noop_of {m : UpdateManager} (env : ApplyEnv)
    (h : m.status.update_available = false ∨ m.policy.enabled = false) :
    apply m env = (m, []) := by
  refine apply_guard_false env ?_
  rcases h with h | h <;> simp [h]

theorem doUpdate_eq_dirty {m : UpdateManager} (b : String) (env : ApplyEnv)
    (hio : env.backupIoOk = true) (hd : m.vcs.dirty = true) :
    doUpdate m b env =
      ({ m with backups := freshBackup m :: m.backups
                phase := .IDLE
                status := { m.status with
                              last_error := some .DirtyTreeError } },
       [.enterBackingUp, .backupCreated, .enterApplying, .checkoutCalled,
        .checkoutFailed]) := by
  unfold doUpdate BackupStore.create checkout freshBackup
  simp [hio, hd]

theorem doUpdate_eq_vcsfail {m : UpdateManager} (b : String) (env : ApplyEnv)
    (hio : env.backupIoOk = true) (hd : m.vcs.dirty = false)
    (hco : env.checkoutOutcome = .vcsFailure) :
    doUpdate m b env =
      ({ m with backups := freshBackup m :: m.backups
                phase := .IDLE
                status := { m.status with
                              last_error := some .CheckoutError } },
       [.enterBackingUp, .backupCreated, .enterApplying, .checkoutCalled,
        .checkoutFailed]) := by
  unfold doUpdate BackupStore.create checkout freshBackup
  simp [hio, hd, hco]

theorem doUpdate_eq_success {m : UpdateManager} (b : String) (env : ApplyEnv)
    (rev : Nat) (hio : env.backupIoOk = true) (hd : m.vcs.dirty = false)
    (hco : env.checkoutOutcome = .success rev) (hh : env.healthOk = true) :
    doUpdate m b env =
      ({ m with vcs := { headBranch := b, headRev := rev, dirty := false }
                backups := freshBackup m :: m.backups
                phase := .IDLE
                status := { m.status with
                              current_branch := b
                              current_revision := rev
                              update_available := false
                              commits_behind := 0
                              last_update := some env.now
                              last_error := none } },
       [.enterBackingUp, .backupCreated, .enterApplying, .checkoutCalled,
        .checkoutSucceeded, .enterRestarting, .restartCalled]) := by
  unfold doUpdate BackupStore.create checkout freshBackup
  simp [hio, hd, hco, hh]

theorem doUpdate_eq_healthfail {m : UpdateManager} (b : String)
    (env : ApplyEnv) (rev : Nat) (hio : env.backupIoOk = true)
    (hd : m.vcs.dirty = false) (hco : env.checkoutOutcome = .success rev)
    (hh : env.healthOk = false) :
    doUpdate m b env =
      ({ m with vcs := { headBranch := m.vcs.headBranch
                         headRev := m.vcs.headRev
                         dirty := false }
                backups := freshBackup m :: m.backups
                phase := .IDLE
                status := { m.status with
                              last_error := some .HealthProbeFailed } },
       [.enterBackingUp, .backupCreated, .enterApplying, .checkoutCalled,
        .checkoutSucceeded, .enterRestarting, .restartCalled,
        .rollbackPerformed]) := by
  unfold doUpdate BackupStore.create checkout freshBackup
  simp [hio, hd, hco, hh]

theorem check_policy (m : UpdateManager) (env : CheckEnv) :
    (check m env).policy = m.policy := by
  unfold check
  cases env.fetchError <;> rfl

theorem apply_policy (m : UpdateManager) (env : ApplyEnv) :
    (apply m env).1.policy = m.policy := by
  unfold apply
  split
  · exact doUpdate_policy m m.policy.branch env
  · rfl

theorem rollback_policy (m : UpdateManager) (i : Option Nat)
    (env : RollbackEnv) : (rollback m i env).1.policy = m.policy := by
  unfold rollback
  split <;> rfl

theorem set_policy_inv {m : UpdateManager} {p : UpdatePolicy}
    (h : PolicyInv m) : PolicyInv (set_policy m p) := by
  unfold set_policy
  cases hv : validate p with
  | error e => exact h
  | ok u =>
      cases u
      exact validate_ok_inv hv

theorem switch_branch_inv {m m2 : UpdateManager} {b : String}
    {env : ApplyEnv} {tr : List Event} (h : PolicyInv m)
    (hs : switch_branch m b env = .ok (m2, tr)) : PolicyInv m2 := by
  unfold switch_branch at hs
  cases hv : validate { m.policy with branch := b } with
  | error e => simp [hv] at hs
  | ok u =>
      cases u
      rw [hv] at hs
      by_cases hcur : (b == m.status.current_branch) = true
      · simp only [hcur, if_true, Except.ok.injEq, Prod.mk.injEq] at hs
        rw [← hs.1]
        exact h
      · simp only [hcur, if_false, Bool.false_eq_true, Except.ok.injEq] at hs
        have h1 : (doUpdate { m with policy := { m.policy with branch := b } }
            b env).1 = m2 := by rw [hs]
        have hp := doUpdate_policy
          { m with policy := { m.policy with branch := b } } b env
        rw [h1] at hp
        constructor
        · rw [hp]
          exact (validate_ok_inv hv).1
        · rw [hp]
          exact (validate_ok_inv hv).2

theorem stepOp_inv {m : UpdateManager} (op : Op) (h : PolicyInv m) :
    PolicyInv (stepOp m op) := by
  cases op with
  | setPolicy p => exact set_policy_inv h
  | doCheck env =>
      show PolicyInv (check m env)
      unfold PolicyInv
      rw [check_policy]
      exact h
  | doApply env =>
      show PolicyInv (apply m env).1
      unfold PolicyInv
      rw [apply_policy]
      exact h
  | doSwitch b env =>
      show PolicyInv (match switch_branch m b env with
        | .ok (m2, _) => m2
        | .error _ => m)
      cases hs : switch_branch m b env with
      | error e => exact h
      | ok r =>
          cases r with
          | mk m2 tr => exact switch_branch_inv h hs
  | doRollback i env =>
      show PolicyInv (rollback m i env).1
      unfold PolicyInv
      rw [rollback_policy]
      exact h

theorem run_inv {m : UpdateManager} (ops : List Op) (h : PolicyInv m) :
    PolicyInv (run m ops) := by
  induction ops generalizing m with
  | nil => exact h
  | cons op rest ih =>
      have : run m (op :: rest) = run (stepOp m op) rest := rfl
      rw [this]
      exact ih (stepOp_inv op h)

theorem initManager_inv : PolicyInv initManager := by
  constructor
  · decide
  · intro h
    rfl

theorem sysStep_mutex {s : Sys} (l : Label) (h : SysMutex s) :
    SysMutex (sysStep s l) := by
  cases s with
  | mk lock t1 t2 =>
      cases lock <;> cases t1 <;> cases t2 <;> cases l <;>
        simp_all [SysMutex, sysStep]

theorem sysRun_mutex {s : Sys} (ls : List Label) (h : SysMutex s) :
    SysMutex (sysRun s ls) := by
  induction ls generalizing s with
  | nil => exact h
  | cons l rest ih =>
      have : sysRun s (l :: rest) = sysRun (sysStep s l) rest := rfl
      rw [this]
      exact ih (sysStep_mutex l h)

theorem sysStep_t1holds {s : Sys} (l : Label) (h : SysT1Holds s) :
    SysT1Holds (sysStep s l) := by
  cases s with
  | mk lock t1 t2 =>
      cases lock <;> cases t1 <;> cases t2 <;> cases l <;>
        simp_all [SysT1Holds, sysStep]

theorem sysRun_t1holds {s : Sys} (ls : List Label) (h : SysT1Holds s) :
    SysT1Holds (sysRun s ls) := by
  induction ls generalizing s with
  | nil => exact h
  | cons l rest ih =>
      have : sysRun s (l :: rest) = sysRun (sysStep s l) rest := rfl
      rw [this]
      exact ih (sysStep_t1holds l h)

theorem sysStep_t1done {s : Sys} (l : Label) (h : s.t1 = .done) :
    (sysStep s l).t1 = .done := by
  cases s with
  | mk lock t1 t2 =>
      cases lock <;> cases t1 <;> cases t2 <;> cases l <;> simp_all [sysStep]

theorem sysRun_t1done {s : Sys} (ls : List Label) (h : s.t1 = .done) :
    (sysRun s ls).t1 = .done := by
  induction ls generalizing s with
  | nil => exact h
  | cons l rest ih =>
      have : sysRun s (l :: rest) = sysRun (sysStep s l) rest := rfl
      rw [this]
      exact ih (sysStep_t1done l h)

theorem sysStep_finish1 {s : Sys} (h : SysT1Holds s) :
    (sysStep s .finish1).t1 = .done := by
  cases s with
  | mk lock t1 t2 =>
      cases lock <;> cases t1 <;> cases t2 <;>
        simp_all [SysT1Holds, sysStep]

theorem sysRun_finish1 {s : Sys} (ls : List Label) (h : SysT1Holds s)
    (hmem : Label.finish1 ∈ ls) : (sysRun s ls).t1 = .done := by
  induction ls generalizing s with
  | nil => cases hmem
  | cons l rest ih =>
      have hstep : sysRun s (l :: rest) = sysRun (sysStep s l) rest := rfl
      rw [hstep]
      rcases List.mem_cons.mp hmem with hl | hl
      · subst hl
        exact sysRun_t1done rest (sysStep_finish1 h)
      · exact ih (sysStep_t1holds l h) hl

theorem sysStep_t1busy {s : Sys} (l : Label) (h : s.t1 = .busyRejected) :
    (sysStep s l).t1 = .busyRejected := by
  cases s with
  | mk lock t1 t2 =>
      cases lock <;> cases t1 <;> cases t2 <;> cases l <;> simp_all [sysStep]

theorem sysRun_t1busy {s : Sys} (ls : List Label)
    (h : s.t1 = .busyRejected) : (sysRun s ls).t1 = .busyRejected := by
  induction ls generalizing s with
  | nil => exact h
  | cons l rest ih =>
      have : sysRun s (l :: rest) = sysRun (sysStep s l) rest := rfl
      rw [this]
      exact ih (sysStep_t1busy l h)

/-! ## Claim theorems -/

/-- C2: every failed `checkout(branch)` call (DirtyTreeError or
CheckoutError) leaves the working tree exactly as it was: the whole `Vcs`
state after the failed call equals the state before it, so in particular
`current_revision()` is unchanged and no partial checkout state remains. -/
theorem C2_checkout_atomic (v : Vcs) (b : String) (out : CheckoutOutcome)
    (e : OtaError) (h : (checkout v b out).1 = .error e) :
    (checkout v b out).2 = v ∧ (checkout v b out).2.headRev = v.headRev := by
  unfold checkout at h ⊢
  cases hd : v.dirty with
  | true => simp [hd]
  | false =>
      cases out with
      | success rev => simp [hd] at h
      | vcsFailure => simp [hd]

theorem C2_checkout_atomic_witness :
    (checkout { headBranch := "main", headRev := 5, dirty := true } "dev"
        (.success 9)).2 =
      { headBranch := "main", headRev := 5, dirty := true } ∧
    (checkout { headBranch := "main", headRev := 5, dirty := true } "dev"
        (.success 9)).2.headRev = 5 :=
  C2_checkout_atomic { headBranch := "main", headRev := 5, dirty := true }
    "dev" (.success 9) .DirtyTreeError rfl

/-- C5: the persisted policy branch is in the fixed allow-list at every
reachable state (every request sequence from the first-boot state), and both
`validate` and `switch_branch` reject a branch name outside
`available_branches` with `ValidationError`; a rejected `switch_branch`
returns the error without producing any new state. -/
theorem C5_branch_allowlist :
    (∀ ops : List Op,
      (run initManager ops).policy.branch ∈ available_branches) ∧
    (∀ p : UpdatePolicy, p.branch ∉ available_branches →
      validate p = .error .ValidationError) ∧
    (∀ (m : UpdateManager) (b : String) (env : ApplyEnv),
      b ∉ available_branches →
      switch_branch m b env = .error .ValidationError) := by
  refine ⟨fun ops => (run_inv ops initManager_inv).1,
    fun p hp => validate_reject_branch hp,
    fun m b env hb => ?_⟩
  have hv := validate_reject_branch
    (p := { m.policy with branch := b }) hb
  unfold switch_branch
  rw [hv]

theorem C5_branch_allowlist_witness :
    switch_branch initManager "nightly"
      { backupIoOk := true, checkoutOutcome := .success 3,
        healthOk := true, now := 1 } = .error .ValidationError :=
  C5_branch_allowlist.2.2 initManager "nightly"
    { backupIoOk := true, checkoutOutcome := .success 3,
      healthOk := true, now := 1 } (by decide)

/-- C6: `validate` rejects every candidate with `auto_pull = true` and
`enabled = false`, and consequently at every reachable state (every request
sequence from the first-boot state) the persisted policy never holds
`auto_pull` set while the OTA system is disabled. -/
theorem C6_validate_autopull (p : UpdatePolicy) (ops : List Op)
    (h1 : p.auto_pull = true) (h2 : p.enabled = false) :
    validate p = .error .ValidationError ∧
    ((run initManager ops).policy.auto_pull = true →
      (run initManager ops).policy.enabled = true) :=
  ⟨validate_reject_autopull h1 h2, (run_inv ops initManager_inv).2⟩

theorem C6_validate_autopull_witness :
    validate { enabled := false, branch := "main", check_on_boot := false,
               auto_pull := true } = .error .ValidationError ∧
    ((run initManager []).policy.auto_pull = true →
      (run initManager []).policy.enabled = true) :=
  C6_validate_autopull
    { enabled := false, branch := "main", check_on_boot := false,
      auto_pull := true } [] rfl rfl

/-- C7: a `check()` that hits a NetworkError or AuthError records the error
in `last_error` and returns normally to IDLE with everything else (policy,
tree, backups) unchanged — `check` is a total function, so an update check
never propagates an exception to the host application.  The admin frontend
likewise swallows a thrown fetch error in `checkForUpdates`, only resetting
its `checking` flag. -/
theorem C7_check_swallows (m : UpdateManager) (env : CheckEnv)
    (e : FetchError) (h : env.fetchError = some e) :
    check m env =
      { m with phase := .IDLE
               status := { m.status with
                             last_error := some e.toOtaError } } ∧
    (∀ st : OTAConfigState,
      st.checkForUpdates .thrown = { st with checking := false }) := by
  constructor
  · unfold check
    rw [h]
  · intro st
    rfl

theorem C7_check_swallows_witness :
    check initManager
      { fetchError := some .network, behind := 0, ahead := 0, now := 2 } =
      { initManager with
          phase := .IDLE
          status := { initManager.status with
                        last_error := some .NetworkError } } ∧
    (∀ st : OTAConfigState,
      st.checkForUpdates .thrown = { st with checking := false }) :=
  C7_check_swallows initManager
    { fetchError := some .network, behind := 0, ahead := 0, now := 2 }
    .network rfl

/-- C10: the frontend `switchBranch` of OTAConfig.tsx assigns the new branch
to the locally held config's `ota.branch` field only when the POST came back
with `response.ok`; on a non-ok response and on a thrown error the whole
component state except the `switchingBranch` flag is unchanged (in
particular the config object), and `switchingBranch` is `false` after every
execution path. -/
theorem C10_switchBranch_frontend (st : OTAConfigState) (branch : String)
    (r : FetchOutcome) :
    ((st.switchBranch branch r).switchingBranch = false) ∧
    (r = .resp false →
      st.switchBranch branch r = { st with switchingBranch := false }) ∧
    (r = .thrown →
      st.switchBranch branch r = { st with switchingBranch := false }) ∧
    (r = .resp true →
      (st.switchBranch branch r).config = st.config.setOtaBranch branch ∧
      (st.switchBranch branch r).config.ota.map OtaSection.branch =
        some (some branch)) := by
  cases r with
  | resp ok =>
      cases ok <;>
        simp [OTAConfigState.switchBranch, DeviceConfig.setOtaBranch]
  | thrown => simp [OTAConfigState.switchBranch]

theorem C10_switchBranch_frontend_witness :
    (({ config := {} } : OTAConfigState).switchBranch "dev"
        (.resp true)).config.ota.map OtaSection.branch = some (some "dev") :=
  ((C10_switchBranch_frontend { config := {} } "dev" (.resp true)).2.2.2
    rfl).2

/-- C1: in every `apply()` execution the manager reaches APPLYING or calls
`VersionControlAdapter.checkout` only after `BackupStore.create` returned
successfully in that same run: any trace containing `enterApplying`
(respectively `checkoutCalled`) starts with `enterBackingUp, backupCreated`,
and the created backup snapshots the pre-update revision of the working
tree; when the backup step fails, `apply()` aborts to IDLE with `last_error
= BackupError` and the working tree unchanged. -/
theorem C1_backup_before_mutate (m : UpdateManager) (env : ApplyEnv) :
    (Event.enterApplying ∈ (apply m env).2 →
      (apply m env).2.take 3 =
        [.enterBackingUp, .backupCreated, .enterApplying] ∧
      (apply m env).1.backups.head?.map Backup.revision =
        some m.vcs.headRev) ∧
    (Event.checkoutCalled ∈ (apply m env).2 →
      (apply m env).2.take 4 =
        [.enterBackingUp, .backupCreated, .enterApplying,
         .checkoutCalled]) ∧
    (env.backupIoOk = false →
      (apply m env).1.vcs = m.vcs ∧
      Event.enterApplying ∉ (apply m env).2 ∧
      Event.checkoutCalled ∉ (apply m env).2 ∧
      (m.status.update_available = true → m.policy.enabled = true →
        (apply m env).1.phase = .IDLE ∧
        (apply m env).1.status.last_error = some .BackupError)) := by
  cases hg : m.status.update_available && m.policy.enabled with
  | false =>
      rw [apply_guard_false env hg]
      refine ⟨fun hmem => by simp at hmem,
        fun hmem => by simp at hmem,
        fun _ => ⟨rfl, by simp, by simp, fun hua hen => ?_⟩⟩
      rw [hua, hen] at hg
      simp at hg
  | true =>
      rw [apply_guard_true env hg]
      cases hio : env.backupIoOk with
      | false =>
          rw [doUpdate_backup_fail m m.policy.branch env hio]
          exact ⟨fun hmem => by simp at hmem,
            fun hmem => by simp at hmem,
            fun _ => ⟨rfl, by simp, by simp, fun _ _ => ⟨rfl, rfl⟩⟩⟩
      | true =>
          cases hd : m.vcs.dirty with
          | true =>
              rw [doUpdate_eq_dirty m.policy.branch env hio hd]
              refine ⟨fun _ => ⟨rfl, rfl⟩, fun _ => rfl, fun hio2 => ?_⟩
              simp [hio] at hio2
          | false =>
              cases hco : env.checkoutOutcome with
              | vcsFailure =>
                  rw [doUpdate_eq_vcsfail m.policy.branch env hio hd hco]
                  refine ⟨fun _ => ⟨rfl, rfl⟩, fun _ => rfl, fun hio2 => ?_⟩
                  simp [hio] at hio2
              | success rev =>
                  cases hh : env.healthOk with
                  | true =>
                      rw [doUpdate_eq_success m.policy.branch env rev hio hd
                        hco hh]
                      refine ⟨fun _ => ⟨rfl, rfl⟩, fun _ => rfl,
                        fun hio2 => ?_⟩
                      simp [hio] at hio2
                  | false =>
                      rw [doUpdate_eq_healthfail m.policy.branch env rev hio
                        hd hco hh]
                      refine ⟨fun _ => ⟨rfl, rfl⟩, fun _ => rfl,
                        fun hio2 => ?_⟩
                      simp [hio] at hio2

theorem C1_backup_before_mutate_witness :
    Event.enterApplying ∉
      (apply initManager
        { backupIoOk := false, checkoutOutcome := .success 3,
          healthOk := true, now := 1 }).2 :=
  ((C1_backup_before_mutate initManager
    { backupIoOk := false, checkoutOutcome := .success 3,
      healthOk := true, now := 1 }).2.2 rfl).2.1

/-- C3: `apply()` is a no-op returning the current state whenever no update
is available or the policy is disabled — no backup, no checkout, no restart
(empty event trace); hence a second `apply()` right after a fully successful
one (which cleared `update_available`) performs no work.  The admin frontend
`applyUpdate` likewise early-returns without issuing any request when
`otaStatus?.update_available` is not set. -/
theorem C3_apply_idempotent (m : UpdateManager) (env env2 : ApplyEnv) :
    (m.status.update_available = false ∨ m.policy.enabled = false →
      apply m env = (m, [])) ∧
    (env.healthOk = true → Event.restartCalled ∈ (apply m env).2 →
      apply (apply m env).1 env2 = ((apply m env).1, [])) ∧
    (∀ (st : OTAConfigState) (os : Option OTAStatus) (r : FetchOutcome),
      (os.map OTAStatus.update_available).getD false = false →
      st.applyUpdate os r = st) := by
  refine ⟨fun h => apply_noop_of env h, fun hh hmem => ?_,
    fun st os r h => ?_⟩
  · cases hg : m.status.update_available && m.policy.enabled with
    | false =>
        rw [apply_guard_false env hg] at hmem
        simp at hmem
    | true =>
        rw [apply_guard_true env hg] at hmem ⊢
        cases hio : env.backupIoOk with
        | false =>
            rw [doUpdate_backup_fail m m.policy.branch env hio] at hmem
            simp at hmem
        | true =>
            cases hd : m.vcs.dirty with
            | true =>
                rw [doUpdate_eq_dirty m.policy.branch env hio hd] at hmem
                simp at hmem
            | false =>
                cases hco : env.checkoutOutcome with
                | vcsFailure =>
                    rw [doUpdate_eq_vcsfail m.policy.branch env hio hd
                      hco] at hmem
                    simp at hmem
                | success rev =>
                    rw [doUpdate_eq_success m.policy.branch env rev hio hd
                      hco hh]
                    exact apply_noop_of env2 (Or.inl rfl)
  · unfold OTAConfigState.applyUpdate
    rw [h]
    simp

theorem C3_apply_idempotent_witness :
    apply initManager
      { backupIoOk := true, checkoutOutcome := .success 3,
        healthOk := true, now := 1 } = (initManager, []) :=
  (C3_apply_idempotent initManager
    { backupIoOk := true, checkoutOutcome := .success 3,
      healthOk := true, now := 1 }
    { backupIoOk := true, checkoutOutcome := .success 3,
      healthOk := true, now := 1 }).1 (Or.inl rfl)

/-- C4: `rollback` with the id omitted restores the most recent backup (the
head of the newest-first store): the status record and the working tree head
move to that backup's revision, the last-update stamp is written, and a
service restart is requested; and both rollback and list-backups are exposed
to the admin layer — `list_backups` returns the store, and the documented
admin REST surface contains the backups and rollback endpoints. -/
theorem C4_rollback_default (m : UpdateManager) (b : Backup)
    (rest : List Backup) (env : RollbackEnv)
    (hb : m.backups = b :: rest) (hio : env.restoreIoOk = true) :
    (rollback m none env).1.status.current_revision = b.revision ∧
    (rollback m none env).1.vcs.headRev = b.revision ∧
    Event.restartCalled ∈ (rollback m none env).2 ∧
    (rollback m none env).1.status.last_update = some env.now ∧
    list_backups m = m.backups ∧
    ("GET", "/api/admin/ota/backups") ∈ documentedOtaEndpoints ∧
    ("POST", "/api/admin/ota/rollback") ∈ documentedOtaEndpoints := by
  have ht : rollbackTarget m none env.restoreIoOk = .ok b := by
    unfold rollbackTarget
    rw [hb, hio]
    rfl
  unfold rollback
  rw [ht]
  exact ⟨rfl, rfl, by simp, rfl, rfl, by decide, by decide⟩

theorem C4_rollback_default_witness :
    (rollback
      { initManager with backups :=
          [{ id := 2, revision := 7, config_snapshot := 0 },
           { id := 1, revision := 3, config_snapshot := 0 }] }
      none { restoreIoOk := true, now := 5 }).1.status.current_revision
      = 7 :=
  (C4_rollback_default
    { initManager with backups :=
        [{ id := 2, revision := 7, config_snapshot := 0 },
         { id := 1, revision := 3, config_snapshot := 0 }] }
    { id := 2, revision := 7, config_snapshot := 0 }
    [{ id := 1, revision := 3, config_snapshot := 0 }]
    { restoreIoOk := true, now := 5 } rfl rfl).1

/-- C8: for a valid target branch, `switch_branch(branch)` is a no-op when
the branch equals the current branch; otherwise it runs exactly the
backup-then-checkout-then-restart core that `apply()` runs, against the new
branch, for every value of `update_available`; and whenever `apply()` itself
would run against the same target, the two return the same result. -/
theorem C8_switch_branch_semantics (m : UpdateManager) (b : String)
    (env : ApplyEnv)
    (hv : validate { m.policy with branch := b } = .ok ()) :
    (b = m.status.current_branch → switch_branch m b env = .ok (m, [])) ∧
    (b ≠ m.status.current_branch →
      switch_branch m b env =
        .ok (doUpdate { m with policy := { m.policy with branch := b } }
              b env)) ∧
    (b ≠ m.status.current_branch → m.policy.branch = b →
      m.status.update_available = true → m.policy.enabled = true →
      switch_branch m b env = .ok (apply m env)) := by
  have hbody : switch_branch m b env =
      (if b == m.status.current_branch then .ok (m, [])
       else .ok (doUpdate
          { m with policy := { m.policy with branch := b } } b env)) := by
    unfold switch_branch
    rw [hv]
  refine ⟨fun he => ?_, fun hne => ?_, fun hne hpb hua hen => ?_⟩
  · rw [hbody]
    simp [he]
  · rw [hbody]
    simp [hne]
  · have h2 : switch_branch m b env =
        .ok (doUpdate { m with policy := { m.policy with branch := b } }
              b env) := by
      rw [hbody]
      simp [hne]
    have hm2 : ({ m with policy := { m.policy with branch := b } } :
        UpdateManager) = m := by
      rw [← hpb]
    rw [h2, hm2, apply_guard_true env (by rw [hua, hen]; rfl), hpb]

theorem C8_switch_branch_semantics_witness :
    switch_branch initManager "dev"
      { backupIoOk := true, checkoutOutcome := .success 3,
        healthOk := true, now := 1 } =
      .ok (doUpdate
        { initManager with policy :=
            { initManager.policy with branch := "dev" } } "dev"
        { backupIoOk := true, checkoutOutcome := .success 3,
          healthOk := true, now := 1 }) :=
  (C8_switch_branch_semantics initManager "dev"
    { backupIoOk := true, checkoutOutcome := .success 3,
      healthOk := true, now := 1 } rfl).2.1 (by decide)

/-- C9: the single-flight lock serialises update operations — in every
reachable state of the two-request lock model at most one request is
running, and for two simultaneous invocations (both arriving before either
completes, in either order) the race loser is rejected with Busy while the
winner runs and, once its finish event occurs, completes. -/
theorem C9_single_flight :
    (∀ ls : List Label,
      ¬((sysRun sysInit ls).t1 = .running ∧
        (sysRun sysInit ls).t2 = .running)) ∧
    (∀ rest : List Label,
      (sysRun sysInit (.attempt1 :: .attempt2 :: rest)).t2 =
        .busyRejected ∧
      ((sysRun sysInit (.attempt1 :: .attempt2 :: rest)).t1 = .running ∨
       (sysRun sysInit (.attempt1 :: .attempt2 :: rest)).t1 = .done) ∧
      (Label.finish1 ∈ rest →
        (sysRun sysInit (.attempt1 :: .attempt2 :: rest)).t1 = .done)) ∧
    (∀ rest : List Label,
      (sysRun sysInit (.attempt2 :: .attempt1 :: rest)).t1 =
        .busyRejected) := by
  refine ⟨fun ls => (sysRun_mutex ls (by unfold SysMutex; decide)).2,
    fun rest => ?_, fun rest => ?_⟩
  · have hre : sysRun sysInit (.attempt1 :: .attempt2 :: rest) =
        sysRun (sysStep (sysStep sysInit .attempt1) .attempt2) rest := rfl
    have h0 : SysT1Holds (sysStep (sysStep sysInit .attempt1) .attempt2) :=
      by unfold SysT1Holds; decide
    have hp := sysRun_t1holds rest h0
    rw [hre]
    exact ⟨hp.1,
      hp.2.elim (fun h => Or.inl h.1) (fun h => Or.inr h.1),
      fun hm => sysRun_finish1 rest h0 hm⟩
  · have hre : sysRun sysInit (.attempt2 :: .attempt1 :: rest) =
        sysRun (sysStep (sysStep sysInit .attempt2) .attempt1) rest := rfl
    rw [hre]
    exact sysRun_t1busy rest (by decide)

theorem C9_single_flight_witness :
    (sysRun sysInit [.attempt1, .attempt2, .finish1]).t1 = .done ∧
    (sysRun sysInit [.attempt1, .attempt2, .finish1]).t2 = .busyRejected :=
  ⟨(C9_single_flight.2.1 [Label.finish1]).2.2 (by decide),
   (C9_single_flight.2.1 [Label.finish1]).1⟩

end DataOrb
